import Mathlib

/-!
Verification of the data-unit marshalling and dispatch layer of
`pynumaflow/function/sync_server.py` (class `SyncServerServicer`).

Shallow embedding notes:
* Protobuf `Timestamp` values are modelled as `Int` (microseconds since the
  Unix epoch); `Timestamp.FromDatetime` / `Timestamp.ToDatetime` round-trip
  exactly at this precision, so both are the identity in the model.
* The wire `Datum` message wraps its timestamps in `EventTime` / `Watermark`
  submessages.  Proto3 submessage fields have explicit presence; a missing
  field reads back as the default instance, whose inner `Timestamp` converts
  to the epoch (`0`).  We model each wrapper chain as one `Option Timestamp`,
  since a field missing at either level yields the same default.
* Python exceptions become an explicit `PyError` value; `try/except/raise`
  becomes matching on `Except PyError`.
* Calls to `_LOGGER` become entries accumulated in the result record, and the
  (possible) effect on the gRPC servicer context is the `setStatusCode` field.
-/

namespace SyncServer

/-- Microseconds since the Unix epoch; model of a protobuf `Timestamp`
converted to/from a Python `datetime`. -/
abbrev Timestamp := Int

/-- `Timestamp()` default instance: `ToDatetime()` gives 1970-01-01 00:00 UTC. -/
def protoDefaultTimestamp : Timestamp := 0

/-- Opaque byte payload (`bytes` in Python). -/
abbrev Value := List UInt8

/-- Wire-format record `udfunction_pb2.Datum`: repeated string `keys`, bytes
`value`, and the `EventTime`/`Watermark` wrapper fields, which may be absent
on the wire (proto3 message-field presence). -/
structure WireDatum where
  keys : List String
  value : Value
  event_time : Option Timestamp
  watermark : Option Timestamp
  deriving DecidableEq, Repr

/-- In-process record `pynumaflow.function.Datum`, as constructed by the
dispatch code: keys, value, and the two decoded (never-`Option`) datetimes. -/
structure Datum where
  keys : List String
  value : Value
  event_time : Timestamp
  watermark : Timestamp
  deriving DecidableEq, Repr

/-- One element of a `Messages` result from a map handler: the dispatch code
reads only `msg.keys` and `msg.value`. -/
structure Message where
  keys : List String
  value : Value
  deriving DecidableEq, Repr

/-- One element of a `MessageTs` result from a mapt handler: the dispatch code
reads `msgt.keys`, `msgt.value` and `msgt.event_time`; a `MessageT` carries no
watermark field. -/
structure MessageT where
  keys : List String
  value : Value
  event_time : Timestamp
  deriving DecidableEq, Repr

/-- Windowing metadata passed to reduce handlers (`Metadata.interval_window`). -/
structure IntervalWindow where
  start : Timestamp
  «end» : Timestamp
  deriving DecidableEq, Repr

/-- Reduce-only metadata. -/
structure Metadata where
  interval_window : IntervalWindow
  deriving DecidableEq, Repr

/-- A raised Python exception, carrying its diagnostic message. -/
inductive PyError where
  /-- `ValueError(msg)` -/
  | valueError (msg : String)
  /-- `TypeError(msg)`, e.g. calling `None` -/
  | typeError (msg : String)
  /-- any other user-raised exception -/
  | userError (msg : String)
  deriving DecidableEq, Repr

/-- Logging severities used by the module's `_LOGGER`. -/
inductive LogLevel where
  | debug
  | info
  | err
  | critical
  deriving DecidableEq, Repr

/-- One `_LOGGER` call: severity and format string. -/
abbrev LogEntry := LogLevel × String

/-- `grpc.StatusCode` values relevant to this module (only `UNIMPLEMENTED`
is ever mentioned, inside a commented-out line of `ReduceFn`). -/
inductive StatusCode where
  | ok
  | unknown
  | unimplemented
  deriving DecidableEq, Repr

/-- `UDFMapCallable = Callable[[List[str], Datum], Messages]`; a Python
callable may also raise. -/
abbrev UDFMapCallable := List String → Datum → Except PyError (List Message)

/-- `UDFMapTCallable = Callable[[List[str], Datum], MessageTs]`. -/
abbrev UDFMapTCallable := List String → Datum → Except PyError (List MessageT)

/-- `UDFReduceCallable = Callable[[List[str], AsyncIterable[Datum], Metadata],
Messages]` (the incremental stream modelled as a list). -/
abbrev UDFReduceCallable :=
  List String → List Datum → Metadata → Except PyError (List Message)

/-- The state `SyncServerServicer.__init__` stores (fields not used by any
dispatch operation — thread pool, cleanup lists — are omitted). -/
structure SyncServerServicer where
  map_handler : Option UDFMapCallable
  mapt_handler : Option UDFMapTCallable
  reduce_handler : Option UDFReduceCallable
  sock_path : String
  max_message_size : Nat
  max_threads : Nat

/-- `SyncServerServicer.__init__`: raises
`ValueError("Require a valid map/mapt handler and/or a valid reduce handler.")`
unless at least one of the three handlers is supplied (Python truthiness of a
supplied callable is always `True`). -/
def mkSyncServerServicer (map_handler : Option UDFMapCallable)
    (mapt_handler : Option UDFMapTCallable)
    (reduce_handler : Option UDFReduceCallable)
    (sock_path : String) (max_message_size : Nat) (max_threads : Nat) :
    Except PyError SyncServerServicer :=
  if map_handler.isNone ∧ mapt_handler.isNone ∧ reduce_handler.isNone then
    .error (.valueError "Require a valid map/mapt handler and/or a valid reduce handler.")
  else
    .ok { map_handler, mapt_handler, reduce_handler,
          sock_path := "unix://" ++ sock_path, max_message_size, max_threads }

/-- Reads `request.event_time.event_time.ToDatetime()` (resp. the watermark
chain): a missing wrapper or timestamp reads as the proto default, which
converts to the epoch. -/
def toDatetime (t : Option Timestamp) : Timestamp :=
  t.getD protoDefaultTimestamp

/-- The decode performed at the top of `MapFn`/`MapTFn`: build the in-process
`Datum` from the wire record (`list(request.keys)` copies the repeated field;
both timestamp chains go through `ToDatetime`). -/
def decode (request : WireDatum) : Datum :=
  { keys := request.keys
    value := request.value
    event_time := toDatetime request.event_time
    watermark := toDatetime request.watermark }

/-- Calling an optional handler: Python calls the stored attribute directly,
so a `None` handler raises `TypeError` inside the `try` block. -/
def callHandler {α : Type} (h : Option (List String → Datum → Except PyError α))
    (keys : List String) (d : Datum) : Except PyError α :=
  match h with
  | none => .error (.typeError "'NoneType' object is not callable")
  | some f => f keys d

instance exceptDecEq {ε α : Type} [DecidableEq ε] [DecidableEq α] :
    DecidableEq (Except ε α) := fun a b =>
  match a, b with
  | .error e, .error f =>
      if h : e = f then .isTrue (by rw [h])
      else .isFalse (fun hc => h (Except.error.inj hc))
  | .error _, .ok _ => .isFalse (fun hc => Except.noConfusion hc)
  | .ok _, .error _ => .isFalse (fun hc => Except.noConfusion hc)
  | .ok x, .ok y =>
      if h : x = y then .isTrue (by rw [h])
      else .isFalse (fun hc => h (Except.ok.inj hc))

/-- Result of one dispatch invocation: the `_LOGGER` calls made, any status
code set on the gRPC context, and either the returned `DatumList` elements or
the exception that propagated. -/
structure DispatchResult where
  logs : List LogEntry
  setStatusCode : Option StatusCode
  outcome : Except PyError (List WireDatum)
  deriving DecidableEq, Repr

/-- The wire record `MapFn` appends per output message:
`udfunction_pb2.Datum(keys=msg.keys, value=msg.value)` — no time fields. -/
def encodePlain (msg : Message) : WireDatum :=
  { keys := msg.keys, value := msg.value, event_time := none, watermark := none }

/-- `SyncServerServicer.MapFn`: decode, invoke the map handler (logging at
critical severity and re-raising on any exception), encode each output with
`encodePlain`, return the `DatumList`. -/
def MapFn (s : SyncServerServicer) (request : WireDatum) : DispatchResult :=
  match callHandler s.map_handler request.keys (decode request) with
  | .error err =>
      { logs := [(.critical, "UDFError, re-raising the error: %r")]
        setStatusCode := none
        outcome := .error err }
  | .ok msgs =>
      { logs := []
        setStatusCode := none
        outcome := .ok (msgs.map encodePlain) }

/-- The wire record `MapTFn` appends per output message: keys and value from
the handler output, `event_time` from `msgt.event_time`, and `watermark`
rebuilt from `request.watermark.watermark.ToDatetime()` — the inbound
request's watermark, never anything from the handler output. -/
def encodeMapT (request : WireDatum) (msgt : MessageT) : WireDatum :=
  { keys := msgt.keys
    value := msgt.value
    event_time := some msgt.event_time
    watermark := some (toDatetime request.watermark) }

/-- `SyncServerServicer.MapTFn`: decode, invoke the mapt handler (logging at
critical severity and re-raising on any exception), encode each output with
`encodeMapT`, return the `DatumList`. -/
def MapTFn (s : SyncServerServicer) (request : WireDatum) : DispatchResult :=
  match callHandler s.mapt_handler request.keys (decode request) with
  | .error err =>
      { logs := [(.critical, "UDFError, re-raising the error: %r")]
        setStatusCode := none
        outcome := .error err }
  | .ok msgts =>
      { logs := []
        setStatusCode := none
        outcome := .ok (msgts.map (encodeMapT request)) }

/-- `SyncServerServicer.ReduceFn`: logs an error line and unconditionally
raises `ValueError("Reduce Not supported on sync")`.  The lines that would
set `grpc.StatusCode.UNIMPLEMENTED` and details on the context are commented
out in the source, so no status code is set; the reduce handler is never
called and the statements after `raise` are dead. -/
def ReduceFn (s : SyncServerServicer) (request_iterator : List WireDatum) :
    DispatchResult :=
  { logs := [(.err, "Reduce not supported on NEW SYNC --")]
    setStatusCode := none
    outcome := .error (.valueError "Reduce Not supported on sync") }

/-- `ReadyResponse` wire message. -/
structure ReadyResponse where
  ready : Bool
  deriving DecidableEq, Repr

/-- `SyncServerServicer.IsReady`: returns `ReadyResponse(ready=True)`
unconditionally. -/
def IsReady (s : SyncServerServicer) : ReadyResponse :=
  { ready := true }

/-- The full marshaller encoding of a `Record` with both time fields, as
`MapTFn` builds it: it is `encodeMapT` applied to the record's own fields,
with the inbound watermark equal to the record's watermark. -/
def encode_as_wire (r : Datum) : WireDatum :=
  encodeMapT
    { keys := r.keys, value := r.value,
      event_time := some r.event_time, watermark := some r.watermark }
    { keys := r.keys, value := r.value, event_time := r.event_time }

/-! Concrete fixtures used by witnesses. -/

/-- A concrete inbound wire record with both timestamps present. -/
def sampleRequest : WireDatum :=
  { keys := ["a"], value := [49], event_time := some 3, watermark := some 7 }

/-- A map handler that always raises a user exception. -/
def erroringMapHandler : UDFMapCallable :=
  fun _ _ => .error (.userError "boom")

/-- A mapt handler that always raises a user exception. -/
def erroringMapTHandler : UDFMapTCallable :=
  fun _ _ => .error (.userError "boom")

/-- A servicer whose map and mapt handlers both raise. -/
def erroringServicer : SyncServerServicer :=
  { map_handler := some erroringMapHandler
    mapt_handler := some erroringMapTHandler
    reduce_handler := none
    sock_path := "unix:///var/run/numaflow/function.sock"
    max_message_size := 4
    max_threads := 4 }

/-- A mapt handler that remaps every input to one fixed output message. -/
def fixedMapTHandler : UDFMapTCallable :=
  fun _ _ => .ok [{ keys := ["a"], value := [49], event_time := 5 }]

/-- A servicer carrying only the fixed mapt handler. -/
def maptServicer : SyncServerServicer :=
  { erroringServicer with mapt_handler := some fixedMapTHandler }

/-- A map handler that drops every input (returns the empty sequence). -/
def droppingMapHandler : UDFMapCallable :=
  fun _ _ => .ok []

/-- A servicer carrying only the dropping map handler. -/
def droppingServicer : SyncServerServicer :=
  { erroringServicer with map_handler := some droppingMapHandler }

/-- A map handler echoing the datum back as a single message. -/
def echoMapHandler : UDFMapCallable :=
  fun keys d => .ok [{ keys := keys, value := d.value }]

/-- A servicer carrying only the echo map handler. -/
def echoServicer : SyncServerServicer :=
  { erroringServicer with map_handler := some echoMapHandler }

/-! Claim theorems. -/

/-- C1: for every servicer and every request stream, the windowed-reduce
dispatch fails with the explicit unsupported-operation `ValueError`, returns
no (empty or partial) result list, and never invokes a reduce handler: its
whole result is independent of the servicer, in particular of its
`reduce_handler`. -/
theorem reduce_dispatch_always_unsupported
    (s₁ s₂ : SyncServerServicer) (reqs : List WireDatum) :
    (ReduceFn s₁ reqs).outcome = .error (.valueError "Reduce Not supported on sync")
    ∧ (∀ out, (ReduceFn s₁ reqs).outcome ≠ .ok out)
    ∧ ReduceFn s₁ reqs = ReduceFn s₂ reqs :=
  ⟨rfl, fun _ hc => Except.noConfusion hc, rfl⟩

/-- C2: whenever the mapt handler succeeds on a request whose watermark is
present, every encoded output record carries the inbound request's watermark
(never one from the handler output, whose type has no watermark field) and
the handler-supplied new event time. -/
theorem mapt_watermark_from_inbound_request
    (s : SyncServerServicer) (h : UDFMapTCallable) (req : WireDatum)
    (w : Timestamp) (msgts : List MessageT)
    (hh : s.mapt_handler = some h)
    (hok : h req.keys (decode req) = .ok msgts)
    (hw : req.watermark = some w) :
    (MapTFn s req).outcome = .ok (msgts.map (encodeMapT req))
    ∧ ∀ m ∈ msgts, (encodeMapT req m).watermark = some w
        ∧ (encodeMapT req m).event_time = some m.event_time := by
  refine ⟨by simp [MapTFn, callHandler, hh, hok], fun m _ => ⟨?_, rfl⟩⟩
  simp [encodeMapT, toDatetime, hw]

/-- C2 witness: the fixed mapt handler on the sample request. -/
theorem mapt_watermark_from_inbound_request_witness :
    (MapTFn maptServicer sampleRequest).outcome
      = .ok [{ keys := ["a"], value := [49],
               event_time := some 5, watermark := some 7 }]
    ∧ (encodeMapT sampleRequest
        { keys := ["a"], value := [49], event_time := 5 }).watermark = some 7 := by
  have h := mapt_watermark_from_inbound_request maptServicer fixedMapTHandler
    sampleRequest 7 [{ keys := ["a"], value := [49], event_time := 5 }]
    rfl rfl rfl
  exact ⟨h.1, (h.2 _ (by simp)).1⟩

/-- C3: whenever the stateless-map dispatch returns a result list, every
record in it has keys and value only: both wire time fields are unset. -/
theorem map_encoding_has_no_time_fields
    (s : SyncServerServicer) (req : WireDatum) (out : List WireDatum)
    (hok : (MapFn s req).outcome = .ok out) :
    ∀ d ∈ out, d.event_time = none ∧ d.watermark = none := by
  intro d hd
  unfold MapFn at hok
  rcases hcall : callHandler s.map_handler req.keys (decode req) with e | msgs
  · rw [hcall] at hok
    exact absurd hok (fun hc => Except.noConfusion hc)
  · rw [hcall] at hok
    have : out = msgs.map encodePlain := by
      simpa using (Except.ok.inj hok).symm
    subst this
    rcases List.mem_map.mp hd with ⟨m, _, hm⟩
    exact hm ▸ ⟨rfl, rfl⟩

/-- C3 witness: the echo handler's single output on the sample request has
no time fields. -/
theorem map_encoding_has_no_time_fields_witness :
    (encodePlain { keys := ["a"], value := [49] }).event_time = none
    ∧ (encodePlain { keys := ["a"], value := [49] }).watermark = none :=
  map_encoding_has_no_time_fields echoServicer sampleRequest
    [encodePlain { keys := ["a"], value := [49] }] rfl _ (by simp)

/-- C4 counterexample: a wire record missing both timestamp wrappers decodes
successfully to a `Datum` whose timestamps are the silently-defaulted proto
epoch, refuting the claim that decode fails on a missing timestamp. -/
theorem decode_missing_timestamp_silently_defaults :
    decode { keys := ["a"], value := [49], event_time := none, watermark := none }
      = { keys := ["a"], value := [49],
          event_time := protoDefaultTimestamp, watermark := protoDefaultTimestamp }
    ∧ protoDefaultTimestamp = 0 :=
  ⟨rfl, rfl⟩

/-- C4 amended: decoding never fails; it is total, copying keys and value and
replacing a missing event-time or watermark field by the proto3 default epoch
timestamp rather than surfacing a decode error. -/
theorem decode_total_with_proto_defaults (w : WireDatum) :
    decode w = { keys := w.keys, value := w.value,
                 event_time := w.event_time.getD protoDefaultTimestamp,
                 watermark := w.watermark.getD protoDefaultTimestamp } :=
  rfl

/-- C5: constructing the servicer with all three handlers absent raises the
configuration `ValueError` immediately; constructing it with at least one
handler present succeeds. -/
theorem init_requires_some_handler :
    (∀ sock mms mt, mkSyncServerServicer none none none sock mms mt
       = .error (.valueError
           "Require a valid map/mapt handler and/or a valid reduce handler."))
    ∧ (∀ m t r sock mms mt, m.isSome ∨ t.isSome ∨ r.isSome →
        ∃ sv, mkSyncServerServicer m t r sock mms mt = .ok sv) := by
  constructor
  · intro sock mms mt
    rfl
  · intro m t r sock mms mt hsome
    cases m <;> cases t <;> cases r <;> simp_all [mkSyncServerServicer]

/-- C5 witness: construction fails with no handler and succeeds with only a
map handler. -/
theorem init_requires_some_handler_witness :
    (mkSyncServerServicer none none none "sock" 4 4
      = .error (.valueError
          "Require a valid map/mapt handler and/or a valid reduce handler."))
    ∧ ∃ sv, mkSyncServerServicer (some echoMapHandler) none none "sock" 4 4
        = .ok sv :=
  ⟨init_requires_some_handler.1 "sock" 4 4,
   init_requires_some_handler.2 (some echoMapHandler) none none "sock" 4 4
     (Or.inl rfl)⟩

/-- C6: on either map-shaped dispatch, an exception raised by the user
handler is logged at critical severity and the very same exception value is
re-raised as the call's outcome, with no translation and no partial result. -/
theorem handler_error_logged_critical_and_reraised
    (s : SyncServerServicer) (req : WireDatum) (e : PyError) :
    (callHandler s.map_handler req.keys (decode req) = .error e →
       (MapFn s req).outcome = .error e
       ∧ (MapFn s req).logs
           = [(LogLevel.critical, "UDFError, re-raising the error: %r")])
    ∧ (callHandler s.mapt_handler req.keys (decode req) = .error e →
       (MapTFn s req).outcome = .error e
       ∧ (MapTFn s req).logs
           = [(LogLevel.critical, "UDFError, re-raising the error: %r")]) := by
  constructor <;> intro hc <;> constructor <;> simp [MapFn, MapTFn, hc]

/-- C6 witness: both handlers of the erroring servicer raise on the sample
request and the dispatcher re-raises the same exception after a critical log. -/
theorem handler_error_logged_critical_and_reraised_witness :
    ((MapFn erroringServicer sampleRequest).outcome = .error (.userError "boom")
      ∧ (MapFn erroringServicer sampleRequest).logs
          = [(LogLevel.critical, "UDFError, re-raising the error: %r")])
    ∧ ((MapTFn erroringServicer sampleRequest).outcome = .error (.userError "boom")
      ∧ (MapTFn erroringServicer sampleRequest).logs
          = [(LogLevel.critical, "UDFError, re-raising the error: %r")]) :=
  ⟨(handler_error_logged_critical_and_reraised erroringServicer sampleRequest
      (.userError "boom")).1 rfl,
   (handler_error_logged_critical_and_reraised erroringServicer sampleRequest
      (.userError "boom")).2 rfl⟩

/-- C7: when the stateless-map handler returns K messages, the dispatch
returns exactly those K messages, plain-encoded, in the same order; an empty
handler result yields an empty response, not an error. -/
theorem map_output_count_and_order_preserved
    (s : SyncServerServicer) (h : UDFMapCallable) (req : WireDatum)
    (msgs : List Message)
    (hh : s.map_handler = some h)
    (hok : h req.keys (decode req) = .ok msgs) :
    (MapFn s req).outcome = .ok (msgs.map encodePlain)
    ∧ (msgs.map encodePlain).length = msgs.length := by
  refine ⟨by simp [MapFn, callHandler, hh, hok], List.length_map _ _⟩

/-- C7 witness: the dropping handler returns zero messages and the dispatch
returns the empty list successfully. -/
theorem map_output_count_and_order_preserved_witness :
    (MapFn droppingServicer sampleRequest).outcome = .ok []
    ∧ ([] : List WireDatum).length = 0 :=
  map_output_count_and_order_preserved droppingServicer droppingMapHandler
    sampleRequest [] rfl rfl

/-- C8 counterexample: the failing reduce dispatch does not report the
structured UNIMPLEMENTED status code (the lines setting it are commented
out); it raises a plain `ValueError`, a generic uncategorized error. -/
theorem reduce_status_code_not_unimplemented :
    (ReduceFn erroringServicer []).setStatusCode ≠ some StatusCode.unimplemented
    ∧ (ReduceFn erroringServicer []).outcome
        = .error (.valueError "Reduce Not supported on sync") :=
  ⟨fun hc => Option.noConfusion hc, rfl⟩

/-- C8 amended: the unsupported reduce path never sets any status code on
the context; it logs one error line and raises an untyped
`ValueError("Reduce Not supported on sync")`, which reaches the transport as
a generic error rather than the structured unimplemented status. -/
theorem reduce_raises_plain_value_error
    (s : SyncServerServicer) (reqs : List WireDatum) :
    (ReduceFn s reqs).setStatusCode = none
    ∧ (ReduceFn s reqs).outcome
        = .error (.valueError "Reduce Not supported on sync")
    ∧ (ReduceFn s reqs).logs = [(LogLevel.err, "Reduce not supported on NEW SYNC --")] :=
  ⟨rfl, rfl, rfl⟩

/-- C9: decoding the full wire encoding of any in-process record restores
the record exactly — keys, value, event time and watermark all preserved. -/
theorem decode_encode_as_wire_roundtrip (r : Datum) :
    decode (encode_as_wire r) = r :=
  rfl

/-- C10: a servicer constructed with only a reduce handler is accepted and
reports ready, yet none of its three dispatch operations can succeed: both
map-shaped dispatches raise (their handlers are absent), the reduce dispatch
always raises its unsupported-operation error, and the stored reduce handler
is never consulted. -/
theorem reduce_only_servicer_ready_but_cannot_serve
    (rh : UDFReduceCallable) (sock : String) (mms mt : Nat)
    (req : WireDatum) (reqs : List WireDatum) :
    ∃ sv, mkSyncServerServicer none none (some rh) sock mms mt = .ok sv
      ∧ (IsReady sv).ready = true
      ∧ (∃ e, (MapFn sv req).outcome = .error e)
      ∧ (∃ e, (MapTFn sv req).outcome = .error e)
      ∧ (ReduceFn sv reqs).outcome
          = .error (.valueError "Reduce Not supported on sync")
      ∧ ∀ rh', ReduceFn { sv with reduce_handler := some rh' } reqs
          = ReduceFn sv reqs := by
  refine ⟨_, rfl, rfl, ⟨_, rfl⟩, ⟨_, rfl⟩, rfl, fun rh' => rfl⟩

end SyncServer
